import Mathlib

/-!
Shallow embedding of `src/lib/strategy.js` (passport-instagram).

The strategy holds configuration (endpoints, requested profile fields),
builds the profile request URL, delegates the authenticated GET to the
OAuth2 engine, decodes the JSON body and normalizes it into a profile.

External collaborators (node's legacy `url` module, the JavaScript
`JSON.parse` builtin and its exception values, and the OAuth2 engine's
`get`) are modelled at their interface boundary: `uriParse`/`uriFormat`
model the query-string splitting and re-serialization behaviour of
`url.parse`/`url.format`, `jsonParse` models `JSON.parse` on a
representative JSON grammar (strings with simple escapes, numbers kept
as literals, arrays, objects, booleans, null), and the engine outcome is
an explicit `Except` value supplied as an oracle.
-/

/-- JavaScript value produced by decoding a JSON document.  Numbers are
kept as their source literal (they are never computed with here). -/
inductive Json where
  | null : Json
  | bool (b : Bool) : Json
  | num (lit : String) : Json
  | str (s : String) : Json
  | arr (elems : List Json) : Json
  | obj (members : List (String × Json)) : Json
deriving Repr

/-- Result of a JavaScript property access: either a `Json` value or
JavaScript `undefined` (the key was absent, or the receiver was a
primitive). -/
inductive JsValue where
  | undefined : JsValue
  | val (j : Json) : JsValue
deriving Repr

/-- Exceptions that can escape the `try` block of `userProfile`: a
`SyntaxError` thrown by `JSON.parse`, or a `TypeError` thrown by a
property access on `null`. -/
inductive JsException where
  | syntaxError (msg : String) : JsException
  | typeError (msg : String) : JsException
deriving Repr

/-- Error reported by the OAuth2 engine's authenticated GET. -/
structure EngineError where
  message : String
deriving Repr

/-- Errors `userProfile` can hand to its `done` callback: the
`InternalOAuthError` wrap of an engine error (line 84 of the source), or
an exception caught by the `try`/`catch` around decode and
normalization (line 101). -/
inductive UserProfileError where
  | internalOAuthError (msg : String) (cause : EngineError) : UserProfileError
  | caught (e : JsException) : UserProfileError
deriving Repr

/-- Name sub-record of the normalized profile. -/
structure ProfileName where
  familyName : JsValue
  givenName : JsValue
deriving Repr

/-- Normalized profile constructed by `userProfile`. -/
structure Profile where
  provider : String
  id : JsValue
  displayName : JsValue
  name : ProfileName
  username : JsValue
  _raw : String
  _json : Json
deriving Repr

/-- Value of an entry of the field map: the code checks
`Array.isArray(map[f])`, so a mapped value is either a single native
name or a list of native names. -/
inductive MapVal where
  | one (s : String) : MapVal
  | many (l : List String) : MapVal
deriving Repr

/-- The field map of `_convertProfileFields` (lines 114-119 of the
source): every current entry maps a name to itself. -/
def instagramFieldMap (f : String) : Option MapVal :=
  if f = "id" then some (.one "id")
  else if f = "username" then some (.one "username")
  else if f = "account_type" then some (.one "account_type")
  else if f = "media_count" then some (.one "media_count")
  else none

/-- Model of JavaScript `Array.prototype.join` with separator a comma. -/
def joinComma : List String → String
  | [] => ""
  | [f] => f
  | f :: rest => f ++ "," ++ joinComma rest

/-- Embedding of `Strategy.prototype._convertProfileFields` (lines
113-136): look each requested field up in the map, push the mapped
name(s) when present, push the field itself otherwise, and join the
result with commas. -/
def _convertProfileFields (profileFields : List String) : String :=
  let fields := profileFields.foldl (fun fields f =>
    match instagramFieldMap f with
    | none => fields ++ [f]
    | some (.one s) => fields ++ [s]
    | some (.many l) => fields ++ l) []
  joinComma fields

/-- One requested field's contribution to the converted list: the
mapped native name(s) when mapped, the field itself otherwise. -/
def expandField (f : String) : List String :=
  match instagramFieldMap f with
  | none => [f]
  | some (.one s) => [s]
  | some (.many l) => l

/-- URL split into the part before the first question mark and the
query (question mark included), as node's legacy `url.parse` exposes it
through `search` (`null` when the URL has no question mark). -/
structure ParsedUrl where
  base : String
  search : Option String
deriving Repr

/-- Character-level splitting at the first question mark. -/
def splitAtQ : List Char → List Char × Option (List Char)
  | [] => ([], none)
  | c :: cs =>
    if c = '?' then ([], some (c :: cs))
    else
      let p := splitAtQ cs
      (c :: p.1, p.2)

/-- Model of `url.parse` restricted to what `userProfile` reads and
writes: the text before the first question mark and the `search`
component (question mark included, `none` when absent).  Fragments are
not modelled. -/
def uriParse (s : String) : ParsedUrl :=
  ⟨String.mk (splitAtQ s.toList).1, Option.map String.mk (splitAtQ s.toList).2⟩

/-- Head test used by re-serialization: whether the text starts with a
question mark. -/
def startsWithQ : List Char → Bool
  | '?' :: _ => true
  | _ => false

/-- Model of `url.format` on such a value: re-attach the search string,
prepending a question mark when it does not already start with one. -/
def uriFormat (u : ParsedUrl) : String :=
  match u.search with
  | none => u.base
  | some s => if startsWithQ s.toList then u.base ++ s else u.base ++ "?" ++ s

/-- Query mutation of line 79 of the source: when the converted field
string is non-empty, set `search` to the old search joined with `&`
(when present) followed by `fields=<value>`; otherwise leave the URL
alone. -/
def urlWithFields (url : ParsedUrl) (fields : String) : ParsedUrl :=
  if fields ≠ "" then
    { url with search := some ((match url.search with
        | some s => s ++ "&"
        | none => "") ++ "fields=" ++ fields) }
  else url

/-- URL built by `userProfile` (lines 76-81): parse the profile
endpoint, mutate the query, re-serialize. -/
def requestUrl (profileURL : String) (profileFields : List String) : String :=
  uriFormat (urlWithFields (uriParse profileURL) (_convertProfileFields profileFields))

/-- Constructor options (`options` object): each key optional.  A JS
caller passing a falsy value (absent, `null`, `undefined`) is `none`;
a supplied array or string is `some`.  (An empty array is truthy in
JavaScript, so it is `some []`, not `none`.) -/
structure Options where
  authorizationURL : Option String := none
  tokenURL : Option String := none
  profileURL : Option String := none
  profileFields : Option (List String) := none

/-- Strategy state established by the constructor: the endpoint values
handed to the OAuth2 engine and the fields the profile fetch uses. -/
structure StrategyState where
  name : String
  authorizationURL : String
  tokenURL : String
  _profileURL : String
  _profileFields : List String
deriving Repr

/-- Embedding of the `Strategy` constructor (lines 44-53): apply the
documented defaults for every missing option.  The constructor body
itself is total: it performs no validation and cannot fail. -/
def makeStrategy (options : Options) : StrategyState :=
  { name := "instagram"
    authorizationURL := options.authorizationURL.getD "https://api.instagram.com/oauth/authorize/"
    tokenURL := options.tokenURL.getD "https://api.instagram.com/oauth/access_token"
    _profileURL := options.profileURL.getD "https://graph.instagram.com/me"
    _profileFields := options.profileFields.getD ["id", "username"] }

/-- Whitespace accepted between JSON tokens. -/
def isJsonWs (c : Char) : Bool :=
  c = ' ' || c = '\n' || c = '\t' || c = '\r'

/-- Drop leading JSON whitespace. -/
def skipWs : List Char → List Char
  | [] => []
  | c :: cs => if isJsonWs c then skipWs cs else c :: cs

/-- Parse the remainder of a JSON string literal, the opening quote
already consumed; simple escapes are supported. -/
def parseStringBody (acc : List Char) : List Char → Except String (String × List Char)
  | [] => .error "Unterminated string in JSON"
  | c :: cs =>
    if c = '"' then .ok (String.mk acc.reverse, cs)
    else if c = '\\' then
      match cs with
      | [] => .error "Unterminated string in JSON"
      | e :: cs2 =>
        if e = '"' then parseStringBody ('"' :: acc) cs2
        else if e = '\\' then parseStringBody ('\\' :: acc) cs2
        else if e = '/' then parseStringBody ('/' :: acc) cs2
        else if e = 'n' then parseStringBody ('\n' :: acc) cs2
        else if e = 't' then parseStringBody ('\t' :: acc) cs2
        else if e = 'r' then parseStringBody ('\r' :: acc) cs2
        else if e = 'b' then parseStringBody (Char.ofNat 8 :: acc) cs2
        else if e = 'f' then parseStringBody (Char.ofNat 12 :: acc) cs2
        else .error "Bad escaped character in JSON"
    else parseStringBody (c :: acc) cs

/-- Parse a JSON number literal, kept as its source text. -/
def parseNumberLit (cs : List Char) : Except String (String × List Char) :=
  let p0 := match cs with
    | '-' :: rest => ((['-'] : List Char), rest)
    | _ => (([] : List Char), cs)
  let p1 := p0.2.span (fun c => c.isDigit)
  if p1.1.isEmpty then .error "Unexpected token in JSON number"
  else
    match p1.2 with
    | '.' :: rest =>
      let p2 := rest.span (fun c => c.isDigit)
      if p2.1.isEmpty then .error "Unexpected token after decimal point in JSON"
      else .ok (String.mk (p0.1 ++ p1.1 ++ '.' :: p2.1), p2.2)
    | _ => .ok (String.mk (p0.1 ++ p1.1), p1.2)

mutual

/-- Parse one JSON value, returning it with the unconsumed input. -/
def parseVal : Nat → List Char → Except String (Json × List Char)
  | 0, _ => .error "JSON nesting budget exhausted"
  | fuel + 1, cs =>
    match skipWs cs with
    | [] => .error "Unexpected end of JSON input"
    | c :: rest =>
      if c = '"' then
        match parseStringBody [] rest with
        | .error e => .error e
        | .ok (s, rest2) => .ok (.str s, rest2)
      else if c = '{' then
        match skipWs rest with
        | '}' :: rest2 => .ok (.obj [], rest2)
        | rest2 => parseMembers fuel rest2 []
      else if c = '[' then
        match skipWs rest with
        | ']' :: rest2 => .ok (.arr [], rest2)
        | rest2 => parseElems fuel rest2 []
      else if c = 't' then
        match rest with
        | 'r' :: 'u' :: 'e' :: rest2 => .ok (.bool true, rest2)
        | _ => .error "Unexpected token in JSON"
      else if c = 'f' then
        match rest with
        | 'a' :: 'l' :: 's' :: 'e' :: rest2 => .ok (.bool false, rest2)
        | _ => .error "Unexpected token in JSON"
      else if c = 'n' then
        match rest with
        | 'u' :: 'l' :: 'l' :: rest2 => .ok (.null, rest2)
        | _ => .error "Unexpected token in JSON"
      else if c = '-' || c.isDigit then
        match parseNumberLit (c :: rest) with
        | .error e => .error e
        | .ok (lit, rest2) => .ok (.num lit, rest2)
      else .error "Unexpected token in JSON"

/-- Parse the members of a JSON object, positioned at a property name. -/
def parseMembers : Nat → List Char → List (String × Json) → Except String (Json × List Char)
  | 0, _, _ => .error "JSON nesting budget exhausted"
  | fuel + 1, cs, acc =>
    match skipWs cs with
    | '"' :: rest =>
      match parseStringBody [] rest with
      | .error e => .error e
      | .ok (key, rest2) =>
        match skipWs rest2 with
        | ':' :: rest3 =>
          match parseVal fuel rest3 with
          | .error e => .error e
          | .ok (v, rest4) =>
            match skipWs rest4 with
            | ',' :: rest5 => parseMembers fuel rest5 (acc ++ [(key, v)])
            | '}' :: rest5 => .ok (.obj (acc ++ [(key, v)]), rest5)
            | _ => .error "Expected comma or closing brace in JSON object"
        | _ => .error "Expected colon in JSON object"
    | _ => .error "Expected property name in JSON object"

/-- Parse the elements of a JSON array, positioned at a value. -/
def parseElems : Nat → List Char → List Json → Except String (Json × List Char)
  | 0, _, _ => .error "JSON nesting budget exhausted"
  | fuel + 1, cs, acc =>
    match parseVal fuel cs with
    | .error e => .error e
    | .ok (v, rest) =>
      match skipWs rest with
      | ',' :: rest2 => parseElems fuel rest2 (acc ++ [v])
      | ']' :: rest2 => .ok (.arr (acc ++ [v]), rest2)
      | _ => .error "Expected comma or closing bracket in JSON array"

end

/-- Model of `JSON.parse`: parse one value and require only whitespace
after it.  The error string stands for the `SyntaxError` message. -/
def jsonParse (body : String) : Except String Json :=
  match parseVal (2 * body.length + 2) body.toList with
  | .error e => .error e
  | .ok (j, rest) =>
    match skipWs rest with
    | [] => .ok j
    | _ => .error "Unexpected non-whitespace character after JSON"

/-- Lookup of a key among object members; with duplicate keys
`JSON.parse` keeps the last occurrence, so the last match wins. -/
def lookupLast (members : List (String × Json)) (key : String) : Option Json :=
  match members with
  | [] => none
  | (k, v) :: rest =>
    match lookupLast rest key with
    | some r => some r
    | none => if k = key then some v else none

/-- Property access on a decoded object: the stored value, or
`undefined` when the key is absent. -/
def objGet (members : List (String × Json)) (key : String) : JsValue :=
  match lookupLast members key with
  | some v => .val v
  | none => .undefined

/-- JavaScript property access on a decoded value: throws a
`TypeError` on `null`, reads the member on an object, and yields
`undefined` on every other primitive or array. -/
def jsGet : Json → String → Except JsException JsValue
  | .null, key => .error (.typeError ("Cannot read properties of null, reading " ++ key))
  | .obj members, key => .ok (objGet members key)
  | _, _ => .ok .undefined

/-- Normalization block of `userProfile` (lines 89-97): build the
profile, reading the properties in source order; retain the raw body
and the decoded document. -/
def normalizeProfile (body : String) (json : Json) : Except JsException Profile :=
  match jsGet json "id" with
  | .error e => .error e
  | .ok idv =>
    match jsGet json "full_name" with
    | .error e => .error e
    | .ok dn =>
      match jsGet json "last_name" with
      | .error e => .error e
      | .ok fam =>
        match jsGet json "first_name" with
        | .error e => .error e
        | .ok giv =>
          match jsGet json "username" with
          | .error e => .error e
          | .ok un =>
            .ok { provider := "instagram", id := idv, displayName := dn,
                  name := { familyName := fam, givenName := giv },
                  username := un, _raw := body, _json := json }

/-- Embedding of `Strategy.prototype.userProfile` (lines 75-104): build
the request URL, call the engine (modelled as an oracle from URL to
outcome), wrap an engine error as `InternalOAuthError`, otherwise
decode the body and normalize; any exception from that block reaches
`done` as a caught error. -/
def userProfile (profileURL : String) (profileFields : List String)
    (oauth2get : String → Except EngineError String) : Except UserProfileError Profile :=
  match oauth2get (requestUrl profileURL profileFields) with
  | .error err => .error (.internalOAuthError "failed to fetch user profile" err)
  | .ok body =>
    match jsonParse body with
    | .error e => .error (.caught (.syntaxError e))
    | .ok json =>
      match normalizeProfile body json with
      | .error e => .error (.caught e)
      | .ok profile => .ok profile

/-- Concatenated expansion of a whole requested-field list: each entry
contributes its mapped native name(s), or itself when unmapped. -/
def expandAll : List String → List String
  | [] => []
  | f :: rest => expandField f ++ expandAll rest

/-- Whether an error is the fetch-failed kind (the `InternalOAuthError`
wrap of the engine error). -/
def UserProfileError.isFetchFailed : UserProfileError → Bool
  | .internalOAuthError _ _ => true
  | .caught _ => false

/-- Whether an error is the kind produced by the decode and
normalization block (an exception caught by the `try`/`catch`). -/
def UserProfileError.isDecodeFailed : UserProfileError → Bool
  | .internalOAuthError _ _ => false
  | .caught _ => true

/-! Helper lemmas about field-list conversion. -/

theorem convert_foldl (l : List String) (acc : List String) :
    l.foldl (fun fields f =>
      match instagramFieldMap f with
      | none => fields ++ [f]
      | some (.one s) => fields ++ [s]
      | some (.many l) => fields ++ l) acc = acc ++ expandAll l := by
  induction l generalizing acc with
  | nil => simp [expandAll]
  | cons x xs ih =>
    rw [List.foldl_cons, ih]
    cases h : instagramFieldMap x with
    | none => simp [expandAll, expandField, h]
    | some v =>
      cases v with
      | one s => simp [expandAll, expandField, h]
      | many l => simp [expandAll, expandField, h]

theorem convert_eq_expandAll (l : List String) :
    _convertProfileFields l = joinComma (expandAll l) := by
  show joinComma (l.foldl _ []) = joinComma (expandAll l)
  rw [convert_foldl]
  rfl

theorem str_append_assoc (a b c : String) : a ++ b ++ c = a ++ (b ++ c) := by
  apply String.ext
  simp [String.data_append, List.append_assoc]

theorem joinComma_append_one (xs : List String) (f : String) :
    joinComma (xs ++ [f]) = if xs.isEmpty then f else joinComma xs ++ "," ++ f := by
  induction xs with
  | nil => simp [joinComma]
  | cons x rest ih =>
    cases rest with
    | nil => simp [joinComma]
    | cons y ys =>
      have h1 : joinComma (x :: y :: (ys ++ [f])) = x ++ "," ++ joinComma (y :: (ys ++ [f])) := rfl
      have h2 : joinComma (x :: y :: ys) = x ++ "," ++ joinComma (y :: ys) := rfl
      simp only [List.cons_append, h1, h2, List.isEmpty_cons, if_neg Bool.false_ne_true]
      rw [show (y :: ys) ++ [f] = y :: (ys ++ [f]) from rfl] at ih
      rw [ih]
      simp [str_append_assoc]

theorem expandField_singleton (f : String) : ∃ s, expandField f = [s] := by
  unfold expandField instagramFieldMap
  by_cases h1 : f = "id"
  · simp [h1]
  · by_cases h2 : f = "username"
    · simp [h1, h2]
    · by_cases h3 : f = "account_type"
      · simp [h1, h2, h3]
      · by_cases h4 : f = "media_count"
        · simp [h1, h2, h3, h4]
        · simp [h1, h2, h3, h4]

theorem expandAll_append (l1 l2 : List String) :
    expandAll (l1 ++ l2) = expandAll l1 ++ expandAll l2 := by
  induction l1 with
  | nil => simp [expandAll]
  | cons x xs ih => simp [expandAll, ih]

theorem expandAll_isEmpty (l : List String) : (expandAll l).isEmpty = l.isEmpty := by
  cases l with
  | nil => rfl
  | cons x xs =>
    obtain ⟨s, hs⟩ := expandField_singleton x
    simp [expandAll, hs]

/-- C2: for every non-empty list of field-name strings,
`_convertProfileFields` returns the comma-joined sequence obtained by
replacing each entry that appears in the field map with its mapped
native name(s) (all names in order when the mapped value is a list) and
keeping every other entry as is, preserving the input order. -/
theorem convertProfileFields_joins_expansion (l : List String) (_h : l ≠ []) :
    _convertProfileFields l = joinComma (expandAll l) :=
  convert_eq_expandAll l

/-- Witness for C2 at a concrete non-empty input. -/
theorem convertProfileFields_joins_expansion_witness :
    _convertProfileFields ["username", "media_count", "photos_count"] =
      joinComma (expandAll ["username", "media_count", "photos_count"]) :=
  convertProfileFields_joins_expansion ["username", "media_count", "photos_count"] (by decide)

/-- C5: every field name that is not one of the mapped keys is appended
unchanged to the output, and the input list `[id, photos_count]` yields
the query value `id,photos_count`. -/
theorem unmapped_fields_pass_through :
    (∀ (l : List String) (f : String),
      f ≠ "id" → f ≠ "username" → f ≠ "account_type" → f ≠ "media_count" →
      _convertProfileFields (l ++ [f]) =
        if l.isEmpty then f else _convertProfileFields l ++ "," ++ f) ∧
    _convertProfileFields ["id", "photos_count"] = "id,photos_count" := by
  constructor
  · intro l f h1 h2 h3 h4
    have hmap : instagramFieldMap f = none := by
      simp [instagramFieldMap, h1, h2, h3, h4]
    have hexp : expandField f = [f] := by
      simp [expandField, hmap]
    have h5 : expandAll [f] = [f] := by simp [expandAll, hexp]
    rw [convert_eq_expandAll, expandAll_append, h5, joinComma_append_one,
      expandAll_isEmpty, convert_eq_expandAll]
  · rfl

/-- Witness for C5 at a concrete unmapped field. -/
theorem unmapped_fields_pass_through_witness :
    _convertProfileFields (["id"] ++ ["photos_count"]) =
      if (["id"] : List String).isEmpty then "photos_count"
      else _convertProfileFields ["id"] ++ "," ++ "photos_count" :=
  unmapped_fields_pass_through.1 ["id"] "photos_count"
    (by decide) (by decide) (by decide) (by decide)

/-- C7 counterexample: the claim quantifies over every options object,
including one that explicitly supplies a `profileFields` value; an
explicitly supplied empty array is truthy in JavaScript, so the
constructor keeps it and the stored field list is empty. -/
theorem profileFields_invariant_counterexample :
    (makeStrategy { profileFields := some [] })._profileFields = [] := rfl

/-- C7 amended: when the options object does not supply
`profileFields`, the stored field list after defaulting is exactly
`[id, username]`, hence non-empty with every element non-empty; a
supplied `profileFields` value is stored verbatim (and so may be empty
or contain empty strings). -/
theorem profileFields_invariant_amended (opts : Options) :
    (opts.profileFields = none →
      (makeStrategy opts)._profileFields = ["id", "username"] ∧
      (makeStrategy opts)._profileFields ≠ [] ∧
      ∀ f ∈ (makeStrategy opts)._profileFields, f ≠ "") ∧
    (∀ fs, opts.profileFields = some fs → (makeStrategy opts)._profileFields = fs) := by
  constructor
  · intro h
    refine ⟨by simp [makeStrategy, h], by simp [makeStrategy, h], ?_⟩
    intro f hf
    simp [makeStrategy, h] at hf
    rcases hf with h1 | h2
    · simp [h1]
    · simp [h2]
  · intro fs h
    simp [makeStrategy, h]

/-- Witness for C7 amended at concrete options. -/
theorem profileFields_invariant_amended_witness :
    (makeStrategy (Options.mk none none none none))._profileFields = ["id", "username"] ∧
    (makeStrategy (Options.mk none none none (some ["id"])))._profileFields = ["id"] :=
  ⟨((profileFields_invariant_amended (Options.mk none none none none)).1 rfl).1,
   (profileFields_invariant_amended (Options.mk none none none (some ["id"]))).2 ["id"] rfl⟩

/-- C10: construction with an empty configuration object stores
`[id, username]` as the requested fields, the default profile endpoint,
the default authorization and token endpoints, and the strategy name;
the constructor is a total function, so construction does not fail. -/
theorem default_construction :
    makeStrategy (Options.mk none none none none) =
      ⟨"instagram",
       "https://api.instagram.com/oauth/authorize/",
       "https://api.instagram.com/oauth/access_token",
       "https://graph.instagram.com/me",
       ["id", "username"]⟩ := rfl

/-! Helper lemmas about URL splitting and re-serialization. -/

theorem splitAtQ_no_q (l : List Char) (h : '?' ∉ l) : splitAtQ l = (l, none) := by
  induction l with
  | nil => rfl
  | cons c cs ih =>
    have hc : ¬ (c = '?') := fun e => h (by rw [e]; exact List.mem_cons_self _ _)
    have hcs : '?' ∉ cs := fun hm => h (List.mem_cons_of_mem _ hm)
    simp [splitAtQ, hc, ih hcs]

theorem splitAtQ_mid (b r : List Char) (h : '?' ∉ b) :
    splitAtQ (b ++ '?' :: r) = (b, some ('?' :: r)) := by
  induction b with
  | nil => simp [splitAtQ]
  | cons c cs ih =>
    have hc : ¬ (c = '?') := fun e => h (by rw [e]; exact List.mem_cons_self _ _)
    have hcs : '?' ∉ cs := fun hm => h (List.mem_cons_of_mem _ hm)
    simp [splitAtQ, hc, ih hcs]

theorem splitAtQ_recombine (l : List Char) :
    (splitAtQ l).1 ++ ((splitAtQ l).2.getD []) = l := by
  induction l with
  | nil => rfl
  | cons c cs ih =>
    by_cases hc : c = '?'
    · simp [splitAtQ, hc]
    · simp only [splitAtQ, if_neg hc]
      simpa using ih

theorem splitAtQ_some_head (l r : List Char) (h : (splitAtQ l).2 = some r) :
    ∃ t, r = '?' :: t := by
  induction l with
  | nil => simp [splitAtQ] at h
  | cons c cs ih =>
    by_cases hc : c = '?'
    · simp [splitAtQ, hc] at h
      exact ⟨cs, h.symm⟩
    · simp only [splitAtQ, if_neg hc] at h
      exact ih h

theorem uriFormat_uriParse (s : String) : uriFormat (uriParse s) = s := by
  have hre := splitAtQ_recombine s.toList
  cases hq : (splitAtQ s.toList).2 with
  | none =>
    have hb : (splitAtQ s.toList).1 = s.toList := by
      rw [hq] at hre; simpa using hre
    simp only [uriParse, uriFormat, hq, Option.map, hb]
    rfl
  | some r =>
    obtain ⟨t, ht⟩ := splitAtQ_some_head s.toList r hq
    rw [hq] at hre
    simp only [Option.getD] at hre
    have : uriFormat (uriParse s) =
        String.mk (splitAtQ s.toList).1 ++ String.mk r := by
      simp only [uriParse, uriFormat, hq, Option.map, ht]
      rfl
    rw [this]
    show String.mk ((splitAtQ s.toList).1 ++ r) = s
    rw [hre]
    rfl

/-- C9: when the field list converts to the empty string (as an empty
list of requested fields does), no fields query parameter is appended
and the request URL equals the configured profile endpoint unchanged. -/
theorem requestUrl_empty_fields (url : String) (fl : List String)
    (h : _convertProfileFields fl = "") : requestUrl url fl = url := by
  unfold requestUrl urlWithFields
  rw [h, if_neg (not_not_intro rfl)]
  exact uriFormat_uriParse url

/-- Witness for C9 at a concrete endpoint carrying a query string and
an empty requested-field list. -/
theorem requestUrl_empty_fields_witness :
    requestUrl "https://graph.instagram.com/me?a=b" [] =
      "https://graph.instagram.com/me?a=b" :=
  requestUrl_empty_fields "https://graph.instagram.com/me?a=b" [] rfl

/-- C6: for every profile endpoint URL already carrying a query string,
when the converted field string is non-empty the URL built by parsing,
setting the query and re-serializing preserves the existing query
parameters and appends the new fields parameter joined to them by an
ampersand. -/
theorem requestUrl_preserves_query (b q : String) (fl : List String)
    (hb : '?' ∉ b.toList) (hf : _convertProfileFields fl ≠ "") :
    requestUrl (b ++ "?" ++ q) fl =
      b ++ "?" ++ q ++ "&fields=" ++ _convertProfileFields fl := by
  have hdata : (b ++ "?" ++ q).toList = b.toList ++ '?' :: q.toList := by
    show (b ++ "?" ++ q).data = b.data ++ '?' :: q.data
    rw [String.data_append, String.data_append, List.append_assoc]
    rfl
  have hsplit : splitAtQ (b ++ "?" ++ q).toList = (b.toList, some ('?' :: q.toList)) := by
    rw [hdata]
    exact splitAtQ_mid _ _ hb
  have hparse : uriParse (b ++ "?" ++ q) = ⟨b, some ("?" ++ q)⟩ := by
    simp only [uriParse, hsplit]
    rfl
  have hw : urlWithFields ⟨b, some ("?" ++ q)⟩ (_convertProfileFields fl) =
      ⟨b, some ("?" ++ q ++ "&" ++ "fields=" ++ _convertProfileFields fl)⟩ := by
    unfold urlWithFields
    rw [if_pos hf]
  have hS : ("?" ++ q ++ "&" ++ "fields=" ++ _convertProfileFields fl).toList =
      '?' :: (q.toList ++ '&' :: ("fields=".toList ++ (_convertProfileFields fl).toList)) := by
    show (_ : String).data = _
    simp only [String.data_append, List.append_assoc]
    rfl
  have hfmt : uriFormat ⟨b, some ("?" ++ q ++ "&" ++ "fields=" ++ _convertProfileFields fl)⟩ =
      b ++ ("?" ++ q ++ "&" ++ "fields=" ++ _convertProfileFields fl) := by
    show (if startsWithQ ("?" ++ q ++ "&" ++ "fields=" ++ _convertProfileFields fl).toList
      then b ++ ("?" ++ q ++ "&" ++ "fields=" ++ _convertProfileFields fl)
      else b ++ "?" ++ ("?" ++ q ++ "&" ++ "fields=" ++ _convertProfileFields fl)) = _
    rw [hS]
    simp [startsWithQ]
  unfold requestUrl
  rw [hparse, hw, hfmt]
  apply String.ext
  have h1 : ("&fields=" : String).data = '&' :: ("fields=" : String).data := rfl
  simp only [String.data_append, List.append_assoc, h1]
  rfl

/-- Witness for C6 at a concrete endpoint with an existing query. -/
theorem requestUrl_preserves_query_witness :
    requestUrl ("https://graph.instagram.com/me" ++ "?" ++ "a=b") ["id"] =
      "https://graph.instagram.com/me" ++ "?" ++ "a=b" ++ "&fields=" ++
        _convertProfileFields ["id"] :=
  requestUrl_preserves_query "https://graph.instagram.com/me" "a=b" ["id"]
    (by decide) (by decide)

/-! Helper lemmas about the profile fetch. -/

theorem userProfile_ok_obj (url : String) (fl : List String)
    (engine : String → Except EngineError String) (body : String)
    (mems : List (String × Json))
    (hget : engine (requestUrl url fl) = .ok body)
    (hjson : jsonParse body = .ok (.obj mems)) :
    userProfile url fl engine = .ok
      { provider := "instagram"
        id := objGet mems "id"
        displayName := objGet mems "full_name"
        name := { familyName := objGet mems "last_name", givenName := objGet mems "first_name" }
        username := objGet mems "username"
        _raw := body
        _json := .obj mems } := by
  unfold userProfile
  rw [hget]
  show (match jsonParse body with
    | .error e => Except.error (UserProfileError.caught (.syntaxError e))
    | .ok json =>
      match normalizeProfile body json with
      | .error e => Except.error (UserProfileError.caught e)
      | .ok profile => Except.ok profile) = _
  rw [hjson]
  rfl

/-- C1: for every response body whose JSON decode is an object,
`userProfile` succeeds with a profile whose provider is instagram, id
and username copied from the document, displayName taken from its
full name field, the name parts taken from its first and last name
fields, and the original body text and decoded document retained; in
particular the documented concrete body yields exactly the documented
profile. -/
theorem userProfile_normalizes_object :
    (∀ (url : String) (fl : List String) (engine : String → Except EngineError String)
      (body : String) (mems : List (String × Json)),
      engine (requestUrl url fl) = .ok body →
      jsonParse body = .ok (.obj mems) →
      userProfile url fl engine = .ok
        { provider := "instagram"
          id := objGet mems "id"
          displayName := objGet mems "full_name"
          name := { familyName := objGet mems "last_name", givenName := objGet mems "first_name" }
          username := objGet mems "username"
          _raw := body
          _json := .obj mems }) ∧
    userProfile "https://graph.instagram.com/me" ["id", "username"]
      (fun _ => .ok "\x7b\"id\":\"42\",\"username\":\"alice\",\"full_name\":\"Alice A\",\"first_name\":\"Alice\",\"last_name\":\"A\"\x7d") =
      .ok
        { provider := "instagram"
          id := .val (.str "42")
          displayName := .val (.str "Alice A")
          name := { familyName := .val (.str "A"), givenName := .val (.str "Alice") }
          username := .val (.str "alice")
          _raw := "\x7b\"id\":\"42\",\"username\":\"alice\",\"full_name\":\"Alice A\",\"first_name\":\"Alice\",\"last_name\":\"A\"\x7d"
          _json := .obj [("id", .str "42"), ("username", .str "alice"),
            ("full_name", .str "Alice A"), ("first_name", .str "Alice"),
            ("last_name", .str "A")] } := by
  constructor
  · intro url fl engine body mems hget hjson
    exact userProfile_ok_obj url fl engine body mems hget hjson
  · rfl

/-- Witness for C1 at a concrete engine outcome and decoded object. -/
theorem userProfile_normalizes_object_witness :
    userProfile "https://graph.instagram.com/me" ["id", "username"]
      (fun _ => .ok "\x7b\"id\":\"1\"\x7d") = .ok
        { provider := "instagram"
          id := objGet [("id", Json.str "1")] "id"
          displayName := objGet [("id", Json.str "1")] "full_name"
          name := { familyName := objGet [("id", Json.str "1")] "last_name",
                    givenName := objGet [("id", Json.str "1")] "first_name" }
          username := objGet [("id", Json.str "1")] "username"
          _raw := "\x7b\"id\":\"1\"\x7d"
          _json := .obj [("id", Json.str "1")] } :=
  userProfile_normalizes_object.1 "https://graph.instagram.com/me" ["id", "username"]
    (fun _ => .ok "\x7b\"id\":\"1\"\x7d") "\x7b\"id\":\"1\"\x7d" [("id", Json.str "1")] rfl rfl

/-- C3: whenever the engine's authenticated GET reports an error,
`userProfile` completes with the single fetch-failed error wrapping the
engine error as its cause, and no profile is produced. -/
theorem engine_error_wrapped (url : String) (fl : List String)
    (engine : String → Except EngineError String) (err : EngineError)
    (h : engine (requestUrl url fl) = .error err) :
    userProfile url fl engine =
      .error (.internalOAuthError "failed to fetch user profile" err) := by
  unfold userProfile
  rw [h]

/-- Witness for C3 at a concrete engine error. -/
theorem engine_error_wrapped_witness :
    userProfile "https://graph.instagram.com/me" ["id", "username"]
      (fun _ => .error ⟨"boom"⟩) =
      .error (.internalOAuthError "failed to fetch user profile" ⟨"boom"⟩) :=
  engine_error_wrapped "https://graph.instagram.com/me" ["id", "username"]
    (fun _ => .error ⟨"boom"⟩) ⟨"boom"⟩ rfl

/-- C4: for every response body that is not valid JSON, `userProfile`
completes with the decode error itself, a failure kind distinct from
the fetch-failed kind, and no profile is returned; the text of the
documented example is indeed not valid JSON. -/
theorem decode_error_surfaced :
    (∀ (url : String) (fl : List String) (engine : String → Except EngineError String)
      (body : String) (e : String),
      engine (requestUrl url fl) = .ok body →
      jsonParse body = .error e →
      userProfile url fl engine = .error (.caught (.syntaxError e)) ∧
      ∀ m c, UserProfileError.caught (.syntaxError e) ≠ .internalOAuthError m c) ∧
    jsonParse "not json" = .error "Unexpected token in JSON" := by
  constructor
  · intro url fl engine body e hget hjson
    constructor
    · unfold userProfile
      rw [hget]
      show (match jsonParse body with
        | .error e => Except.error (UserProfileError.caught (.syntaxError e))
        | .ok json =>
          match normalizeProfile body json with
          | .error e => Except.error (UserProfileError.caught e)
          | .ok profile => Except.ok profile) = _
      rw [hjson]
    · intro m c hcontra
      exact UserProfileError.noConfusion hcontra
  · rfl

/-- Witness for C4 at the concrete invalid body. -/
theorem decode_error_surfaced_witness :
    userProfile "https://graph.instagram.com/me" ["id", "username"]
      (fun _ => .ok "not json") =
      .error (.caught (.syntaxError "Unexpected token in JSON")) ∧
    ∀ m c, UserProfileError.caught (.syntaxError "Unexpected token in JSON") ≠
      .internalOAuthError m c :=
  decode_error_surfaced.1 "https://graph.instagram.com/me" ["id", "username"]
    (fun _ => .ok "not json") "not json" "Unexpected token in JSON" rfl rfl

/-- C8: every error `userProfile` produces is of the fetch-failed kind
or of the kind produced by the decode and normalization block, and a
decoded object missing the full name, first name or last name keys
yields a successful profile whose corresponding fields are undefined,
not an error. -/
theorem only_two_error_kinds :
    (∀ (url : String) (fl : List String) (engine : String → Except EngineError String)
      (e : UserProfileError), userProfile url fl engine = .error e →
      e.isFetchFailed = true ∨ e.isDecodeFailed = true) ∧
    (∀ (url : String) (fl : List String) (engine : String → Except EngineError String)
      (body : String) (mems : List (String × Json)),
      engine (requestUrl url fl) = .ok body →
      jsonParse body = .ok (.obj mems) →
      lookupLast mems "full_name" = none →
      lookupLast mems "first_name" = none →
      lookupLast mems "last_name" = none →
      ∃ p, userProfile url fl engine = .ok p ∧
        p.displayName = .undefined ∧ p.name.givenName = .undefined ∧
        p.name.familyName = .undefined) := by
  constructor
  · intro url fl engine e _h
    cases e with
    | internalOAuthError m c => exact Or.inl rfl
    | caught ex => exact Or.inr rfl
  · intro url fl engine body mems hget hjson h1 h2 h3
    refine ⟨_, userProfile_ok_obj url fl engine body mems hget hjson, ?_, ?_, ?_⟩
    · simp [objGet, h1]
    · simp [objGet, h2]
    · simp [objGet, h3]

/-- Witness for C8 at a concrete error and a concrete object missing
the optional name keys. -/
theorem only_two_error_kinds_witness :
    ((UserProfileError.internalOAuthError "failed to fetch user profile" ⟨"boom"⟩).isFetchFailed = true ∨
      (UserProfileError.internalOAuthError "failed to fetch user profile" ⟨"boom"⟩).isDecodeFailed = true) ∧
    (∃ p, userProfile "https://graph.instagram.com/me" ["id", "username"]
      (fun _ => .ok "\x7b\"id\":\"7\"\x7d") = .ok p ∧
      p.displayName = .undefined ∧ p.name.givenName = .undefined ∧
      p.name.familyName = .undefined) :=
  ⟨only_two_error_kinds.1 "https://graph.instagram.com/me" ["id", "username"]
      (fun _ => .error ⟨"boom"⟩)
      (.internalOAuthError "failed to fetch user profile" ⟨"boom"⟩) rfl,
   only_two_error_kinds.2 "https://graph.instagram.com/me" ["id", "username"]
      (fun _ => .ok "\x7b\"id\":\"7\"\x7d") "\x7b\"id\":\"7\"\x7d" [("id", Json.str "7")]
      rfl rfl rfl rfl rfl⟩
